import Mathlib

/-!
Verification development for the facebook-groups-bot repository.

Shallow embedding of the job-orchestration subsystem (`src/job_manager.py`,
`src/database.py`) and of the incremental crawl and deduplication engine
(`src/scraper.py`, `src/bot_processor.py`).  Timestamps are modelled as
natural numbers, persisted tables as Lean lists, and the external
capabilities the code drives (DOM crawling, the rapidfuzz similarity
scorer) as explicit parameters, following the spec's scoping of those
collaborators as opaque.
-/

namespace FB

/-! ### Data model (src/database.py) -/

/-- Status values of the `jobs` table and of the in-memory `JobContext`:
pending, running, completed, failed, cancelled (database.py line 80). -/
inductive JobStatus
  | pending
  | running
  | completed
  | failed
  | cancelled
deriving DecidableEq

/-- Status values of the `bot_runs` table: running, completed, failed,
cancelled (database.py line 61). -/
inductive RunStatus
  | running
  | completed
  | failed
  | cancelled
deriving DecidableEq

/-- A row of the `posts` table (database.py, class Post).  A `None` content
and an empty content are indistinguishable to all embedded operations
(python falsiness), so content is a plain string. -/
structure Post where
  post_id : String
  content : String
  author : String
  user_id : String
  bot_id : String
  group_id : String
  is_lead : Option Bool
  is_contacted : Bool
deriving DecidableEq

/-- A row of the `group` table (database.py, class Group). -/
structure Group where
  group_id : String
  bot_id : String
  last_scrape_date : Nat
  last_run_error : Bool
  last_error_message : Option String
deriving DecidableEq

/-- A row of the `bot_runs` table (database.py, class BotRun). -/
structure BotRun where
  id : Nat
  bot_id : String
  run_type : String
  status : RunStatus
  total_items : Nat
  processed_items : Nat
  error_message : Option String
  triggered_by : String
deriving DecidableEq

/-- A row of the `jobs` table (database.py, class Job).  The JSON-encoded
`log_messages` column is modelled as the list of message strings it
encodes (timestamps of log entries are not modelled). -/
structure JobRow where
  id : String
  bot_id : String
  job_type : String
  bot_run_id : Nat
  status : JobStatus
  progress : Nat
  current_step : Option String
  log_messages : List String
deriving DecidableEq

/-! ### Incremental crawl (src/scraper.py) -/

/-- One item of the reverse-chronological feed as seen by
`FacebookScraper.scrape_posts`.  Each field records the outcome of the
corresponding DOM extraction step: `author_name` of `_extract_author_name`,
`user_id` of `_extract_user_id`, `content` of `_extract_post_content`.
`date_info` combines `_extract_post_date` with `parse_facebook_date`:
`none` means no date string was extracted, `some none` a date string that
does not parse, `some (some t)` a date string parsing to timestamp `t`. -/
structure FeedItem where
  author_name : Option String
  user_id : Option String
  date_info : Option (Option Nat)
  content : Option String
deriving DecidableEq

/-- `FacebookScraper._should_stop_for_old_post` (scraper.py lines 393-408):
given the parsed date of the current post, the stored watermark and the
current old-post streak, returns whether to stop and the new streak. -/
def should_stop_for_old_post (parsed_date : Option Nat)
    (latest_post_date : Option Nat) (old_posts_streak : Nat) : Bool × Nat :=
  match parsed_date, latest_post_date with
  | some p, some w =>
    if p < w then
      if 3 ≤ old_posts_streak + 1 then (true, old_posts_streak + 1)
      else (false, old_posts_streak + 1)
    else (false, 0)
  | _, _ => (false, 0)

/-- The per-item loop of `FacebookScraper.scrape_posts` (scraper.py lines
442-538), over the remaining feed with the current `old_posts_streak`,
`scraped_posts` count and collected list.  Items failing author or user-id
extraction are skipped; a post with a date string runs the old-post check
(stopping, or skipping while the streak is positive); items without
content are skipped; collected items count against `max_posts_to_scan`. -/
def scrape_posts_loop (latest_post_date : Option Nat) (max_posts_to_scan : Nat) :
    List FeedItem → Nat → Nat → List FeedItem → List FeedItem
  | [], _, _, acc => acc
  | item :: rest, old_posts_streak, scraped_posts, acc =>
    match item.author_name, item.user_id with
    | some _, some _ =>
      match item.date_info with
      | some parsed =>
        match should_stop_for_old_post parsed latest_post_date old_posts_streak with
        | (true, _) => acc
        | (false, streak1) =>
          if 0 < streak1 then
            scrape_posts_loop latest_post_date max_posts_to_scan rest streak1 scraped_posts acc
          else
            match item.content with
            | some _ =>
              if max_posts_to_scan ≤ scraped_posts + 1 then acc ++ [item]
              else scrape_posts_loop latest_post_date max_posts_to_scan rest streak1
                (scraped_posts + 1) (acc ++ [item])
            | none =>
              scrape_posts_loop latest_post_date max_posts_to_scan rest streak1 scraped_posts acc
      | none =>
        match item.content with
        | some _ =>
          if max_posts_to_scan ≤ scraped_posts + 1 then acc ++ [item]
          else scrape_posts_loop latest_post_date max_posts_to_scan rest old_posts_streak
            (scraped_posts + 1) (acc ++ [item])
        | none =>
          scrape_posts_loop latest_post_date max_posts_to_scan rest old_posts_streak
            scraped_posts acc
    | _, _ =>
      scrape_posts_loop latest_post_date max_posts_to_scan rest old_posts_streak
        scraped_posts acc

/-- `FacebookScraper.scrape_posts` (scraper.py lines 418-540): scrape a
group feed against the stored watermark, starting with streak 0, no posts
scraped and an empty collection. -/
def scrape_posts (latest_post_date : Option Nat) (max_posts_to_scan : Nat)
    (feed : List FeedItem) : List FeedItem :=
  scrape_posts_loop latest_post_date max_posts_to_scan feed 0 0 []

/-! ### Duplicate detection (src/database.py) -/

/-- Two posts agree on the exact-duplicate key: same content, same
author identity (`user_id`) and same bot. -/
def SameItemKey (p q : Post) : Prop :=
  p.content = q.content ∧ p.user_id = q.user_id ∧ p.bot_id = q.bot_id

/-- The boolean row filter of `check_duplicate_post`'s query. -/
def matches_post_key (p : Post) (q : Post) : Bool :=
  (q.content == p.content) && (q.user_id == p.user_id) && (q.bot_id == p.bot_id)

/-- `check_duplicate_post` (database.py lines 160-169): select the posts
with the same content, user id and bot id and take `scalar_one_or_none`,
which returns the unique row or `None`, and raises `MultipleResultsFound`
(modelled as `none`) when more than one row matches. -/
def check_duplicate_post (store : List Post) (post : Post) : Option Bool :=
  match store.filter (matches_post_key post) with
  | [] => some false
  | [_] => some true
  | _ => none

/-- `check_duplicate_lead` (database.py lines 171-190).  The rapidfuzz
`fuzz.partial_ratio` scorer is an external capability and is passed in as
the parameter `fuzz_ratio` (applied, as in the code, to the lowercased
contents).  Stored posts are filtered to leads of the same author and bot;
a pair with an empty stored content or an empty new content is skipped;
the check fires when some remaining pair scores at least the threshold. -/
def check_duplicate_lead (fuzz_ratio : String → String → Rat) (store : List Post)
    (user_id : String) (new_content : String) (bot_id : String)
    (similarity_threshold : Rat) : Bool :=
  (store.filter fun p =>
      (p.user_id == user_id) && (p.is_lead == some true) && (p.bot_id == bot_id)).any
    fun p =>
      (!(p.content == "")) && (!(new_content == "")) &&
        decide (similarity_threshold ≤ fuzz_ratio p.content.toLower new_content.toLower)

/-- The per-post classification step of `LeadBotProcessor.classify_posts`
(bot_processor.py lines 104-126): the post's `is_lead` flag is set to the
analysis verdict; a post the analysis marks as lead is then checked with
`check_duplicate_lead` at the default threshold 80, and a flagged post is
demoted (`is_lead := false`) and left out of the returned candidates.
Returns the stored post together with whether it was kept as a candidate. -/
def classify_post_step (fuzz_ratio : String → String → Rat) (store : List Post)
    (bot_id : String) (post : Post) (analysis_is_lead : Bool) : Post × Bool :=
  let post1 : Post := { post with is_lead := some analysis_is_lead }
  if analysis_is_lead then
    if check_duplicate_lead fuzz_ratio store post.user_id post.content bot_id 80 then
      ({ post1 with is_lead := some false }, false)
    else (post1, true)
  else (post1, false)

/-! ### Collect stage of the job pipeline

The database-backed `GroupProcessor` that `JobManager._run_scrape_job`
instantiates (`GroupProcessor(bot_config)` / `process_all_groups()`) is not
part of the source tree: the `group_processor.py` present is the legacy
export-to-Excel variant with a different constructor and no database
access.  The persist step and the watermark update of the missing Collect
stage are therefore modelled from the spec; the crawl itself and the
exact-duplicate query reuse the embeddings of `scraper.py` and
`database.py` above. -/

/-- Modelled from the spec: the per-item persist step of the missing
database-backed Collect stage — before persisting a newly collected item
the pipeline runs the exact-duplicate check `check_duplicate_post` and
rejects the item when a matching row already exists (an exceptional
multiple-row answer likewise persists nothing). -/
def persist_item (store : List Post) (post : Post) : List Post :=
  match check_duplicate_post store post with
  | some false => store ++ [post]
  | _ => store

/-- A collected feed item turned into a `posts` row for its group and bot. -/
def feed_item_to_post (bot_id : String) (group_id : String) (it : FeedItem) : Post :=
  { post_id := group_id ++ "_" ++ it.user_id.getD "",
    content := it.content.getD "",
    author := it.author_name.getD "",
    user_id := it.user_id.getD "",
    bot_id := bot_id,
    group_id := group_id,
    is_lead := none,
    is_contacted := false }

/-- Modelled from the spec: one successful crawl of a source group by the
missing database-backed Collect stage.  The feed is scraped with
`scrape_posts` against the group's stored watermark, the collected items
are persisted through `persist_item`, and the group's watermark
`last_scrape_date` is advanced to `start_time`, the time at which the
crawl started (not to any item's timestamp), clearing the error flag. -/
def collect_group (start_time : Nat) (max_posts_to_scan : Nat)
    (feed : List FeedItem) (g : Group) (store : List Post) : Group × List Post :=
  let items := scrape_posts (some g.last_scrape_date) max_posts_to_scan feed
  let new_store :=
    items.foldl (fun s it => persist_item s (feed_item_to_post g.bot_id g.group_id it)) store
  ({ g with
      last_scrape_date := start_time
      last_run_error := false
      last_error_message := none },
    new_store)

/-! ### Job orchestration (src/job_manager.py, src/database.py) -/

/-- The in-memory `JobContext` of job_manager.py (lines 16-28).  The
`asyncio` objects are modelled by their observable state: whether the
cancellation event has been set, whether the task has finished, and
whether `task.cancel()` has been requested. -/
structure JobContext where
  job_id : String
  bot_id : String
  job_type : String
  status : JobStatus
  progress : Nat
  bot_run_id : Nat
  cancel_event_set : Bool
  task_done : Bool
  task_cancel_requested : Bool
deriving DecidableEq

/-- The terminal-status test used by `JobManager.cancel_job` (line 337)
and `JobManager._periodic_cleanup` (line 396): completed, failed or
cancelled. -/
def is_terminal (s : JobStatus) : Bool :=
  match s with
  | .completed => true
  | .failed => true
  | .cancelled => true
  | _ => false

/-- `JobManager.cancel_job` (job_manager.py lines 321-351) over the live
registry: an unknown job id or an already terminal status returns false
and leaves the registry untouched; otherwise the job's cancellation event
is set, task cancellation is requested when the task is not done, and the
call returns true. -/
def cancel_job (jobs : List JobContext) (job_id : String) : Bool × List JobContext :=
  match jobs.find? (fun c => c.job_id == job_id) with
  | none => (false, jobs)
  | some c =>
    if is_terminal c.status then (false, jobs)
    else
      (true,
        jobs.map fun d =>
          if d.job_id == job_id then
            if !d.task_done then
              { d with
                  cancel_event_set := true
                  task_cancel_requested := true }
            else
              { d with cancel_event_set := true }
          else d)

/-- The synthetic log message appended by startup recovery
(database.py line 346). -/
def restart_message : String :=
  "Job marked as failed due to system restart"

/-- `cleanup_stale_jobs` (database.py lines 335-351), run once by
`JobManager.initialize` at process start: every persisted job whose
status is running is marked failed and gets the restart message appended
to its log; all other rows are left as they are. -/
def cleanup_stale_jobs (rows : List JobRow) : List JobRow :=
  rows.map fun j =>
    if j.status = .running then
      { j with
          status := .failed
          log_messages := j.log_messages ++ [restart_message] }
    else j

/-- The status transitions performed anywhere in the code on a job:
`pending → running` when `_run_job` starts (line 135), and
`running → completed | failed | cancelled` at its end (lines 155, 166,
174) — `cleanup_stale_jobs`'s `running → failed` coincides with the
failure transition. -/
inductive JobStep : JobStatus → JobStatus → Prop
  | start : JobStep .pending .running
  | complete : JobStep .running .completed
  | cancel : JobStep .running .cancelled
  | failure : JobStep .running .failed

/-- The three ways `_run_job`'s task can end: normal return, an
`asyncio.CancelledError`, or any other exception. -/
inductive RunOutcome
  | success
  | cancelled_error
  | raised (msg : String)

/-- The successive values taken by a job's status over its whole life,
as written by `start_job` (status pending at creation, line 102) and
`_run_job` (running first, then exactly one terminal status depending on
how the task ends, job_manager.py lines 121-178). -/
def job_status_trace (r : RunOutcome) : List JobStatus :=
  match r with
  | .success => [.pending, .running, .completed]
  | .cancelled_error => [.pending, .running, .cancelled]
  | .raised _ => [.pending, .running, .failed]

/-- `create_bot_run` (database.py lines 225-237): a fresh `bot_runs` row,
created with status running. -/
def create_bot_run (next_id : Nat) (bot_id : String) (run_type : String)
    (triggered_by : String) : BotRun :=
  { id := next_id,
    bot_id := bot_id,
    run_type := run_type,
    status := .running,
    total_items := 0,
    processed_items := 0,
    error_message := none,
    triggered_by := triggered_by }

/-- `create_job` (database.py lines 275-289): a fresh `jobs` row, created
with status pending, progress 0 and an empty log. -/
def create_job (job_id : String) (bot_id : String) (job_type : String)
    (bot_run_id : Nat) : JobRow :=
  { id := job_id,
    bot_id := bot_id,
    job_type := job_type,
    bot_run_id := bot_run_id,
    status := .pending,
    progress := 0,
    current_step := none,
    log_messages := [] }

/-- The persisted tables and the live registry touched by
`JobManager.start_job`. -/
structure SchedulerState where
  runs : List BotRun
  job_rows : List JobRow
  contexts : List JobContext

/-- `JobManager.start_job` (job_manager.py lines 65-119): create one
`bot_runs` row via `create_bot_run` and one `jobs` row via `create_job`,
allocate the in-memory context with status pending and progress 0, spawn
the task, and return the job id at once.  The fresh uuid is the
`job_id` argument; the run row id is the next free integer key. -/
def start_job (st : SchedulerState) (job_id : String) (bot_id : String)
    (job_type : String) (triggered_by : String) : String × SchedulerState :=
  let run := create_bot_run (st.runs.length + 1) bot_id job_type triggered_by
  let row := create_job job_id bot_id job_type run.id
  let ctx : JobContext :=
    { job_id := job_id,
      bot_id := bot_id,
      job_type := job_type,
      status := .pending,
      progress := 0,
      bot_run_id := run.id,
      cancel_event_set := false,
      task_done := false,
      task_cancel_requested := false }
  (job_id,
    { runs := st.runs ++ [run],
      job_rows := st.job_rows ++ [row],
      contexts := st.contexts ++ [ctx] })

/-! ### The full pipeline (job_manager.py lines 287-319) -/

/-- Outcome of one sub-stage of the full pipeline: it either returns or
raises with an error message. -/
inductive StageResult
  | ok
  | fail (msg : String)

/-- The environment a `full` job runs against: how each sub-stage ends,
whether there are unclassified posts for the classify stage, and whether
there are uncontacted candidates for the process stage. -/
structure FullPipelineEnv where
  scrape_result : StageResult
  classify_result : StageResult
  has_posts : Bool
  process_result : StageResult
  has_candidates : Bool

/-- `JobManager._run_full_pipeline` (lines 287-319) together with the
progress writes of its sub-stages (`_run_scrape_job` line 196,
`_run_classify_job` line 228, `_run_process_job` line 281).  Returns, in
order, the progress values written through `update_job`, the sub-stages
that were started, and the error of the first failing sub-stage if any.
Each sub-stage that completes writes progress 100 itself before the
pipeline writes the next stage boundary (33 or 66); the classify and
process sub-stages skip their 100-write when they have nothing to do; a
raising sub-stage writes no progress and aborts the remaining stages. -/
def run_full_pipeline (env : FullPipelineEnv) : List Nat × List String × Option String :=
  match env.scrape_result with
  | .fail m => ([0], [("scrape")], some m)
  | .ok =>
    match env.classify_result with
    | .fail m => ([0, 100, 33, 33], [("scrape"), ("classify")], some m)
    | .ok =>
      let classify_writes := if env.has_posts then [100] else []
      match env.process_result with
      | .fail m =>
        ([0, 100, 33, 33] ++ classify_writes ++ [66, 66],
          [("scrape"), ("classify"), ("process")], some m)
      | .ok =>
        ([0, 100, 33, 33] ++ classify_writes ++ [66, 66] ++
            (if env.has_candidates then [100] else []) ++ [100],
          [("scrape"), ("classify"), ("process")], none)

/-- A `full` job as executed by `_run_job` (lines 121-178) around
`_run_full_pipeline`: on normal return the job and the run are marked
completed and a final progress 100 is written; on an exception the job
and the run are marked failed with the raising stage's error and no
further progress is written. -/
def run_job_full (env : FullPipelineEnv) :
    List Nat × JobStatus × RunStatus × Option String :=
  match run_full_pipeline env with
  | (ws, _, none) => (ws ++ [100], .completed, .completed, none)
  | (ws, _, some m) => (ws, .failed, .failed, some m)

/-! ### Concrete instances used by witnesses and counterexamples -/

/-- A feed item with every extraction succeeding and timestamp 5. -/
def old_item : FeedItem :=
  { author_name := some ("Ann"), user_id := some ("u1"),
    date_info := some (some 5), content := some ("hello") }

/-- A source group with watermark 0. -/
def g0 : Group :=
  { group_id := "g1", bot_id := "b1", last_scrape_date := 0,
    last_run_error := false, last_error_message := none }

/-- A stored lead post of author u1 on bot b1. -/
def lead_post1 : Post :=
  { post_id := "p1", content := "hello world", author := "Ann",
    user_id := "u1", bot_id := "b1", group_id := "g1",
    is_lead := some true, is_contacted := false }

/-- A freshly scraped post of the same author on the same bot. -/
def new_post1 : Post :=
  { post_id := "p2", content := "hello world again", author := "Ann",
    user_id := "u1", bot_id := "b1", group_id := "g1",
    is_lead := none, is_contacted := false }

/-- A constant similarity scorer standing in for rapidfuzz in witnesses. -/
def fr90 : String → String → Rat := fun _ _ => 90

/-- A persisted job row stuck in status running. -/
def row_running : JobRow :=
  { id := "j1", bot_id := "b1", job_type := "scrape", bot_run_id := 1,
    status := .running, progress := 40, current_step := some ("Scraping"),
    log_messages := [("started")] }

/-- A persisted job row already completed. -/
def row_done : JobRow :=
  { id := "j2", bot_id := "b1", job_type := "classify", bot_run_id := 2,
    status := .completed, progress := 100, current_step := none,
    log_messages := [("done")] }

/-- A persisted job row still pending. -/
def row_pending : JobRow :=
  { id := "j3", bot_id := "b1", job_type := "full", bot_run_id := 3,
    status := .pending, progress := 0, current_step := none,
    log_messages := [] }

/-- A live job context in status running whose task has not finished. -/
def ctx_running : JobContext :=
  { job_id := "j1", bot_id := "b1", job_type := "scrape",
    status := .running, progress := 40, bot_run_id := 1,
    cancel_event_set := false, task_done := false,
    task_cancel_requested := false }

/-- A full-pipeline environment where every sub-stage succeeds. -/
def env_all_ok : FullPipelineEnv :=
  { scrape_result := .ok, classify_result := .ok, has_posts := true,
    process_result := .ok, has_candidates := true }

/-- A full-pipeline environment where the classify sub-stage raises. -/
def env_classify_fails : FullPipelineEnv :=
  { scrape_result := .ok, classify_result := .fail ("classify boom"),
    has_posts := true, process_result := .ok, has_candidates := true }

/-! ### C7: startup recovery fails every running job -/

/-- C7: startup recovery (`cleanup_stale_jobs`, run once by the job
manager at process start) turns every persisted job in status running
into status failed with the synthetic restart message appended to its
log, and afterwards no persisted job has status running. -/
theorem C7_startup_recovery :
    (∀ rows : List JobRow, ∀ j' ∈ cleanup_stale_jobs rows,
      j'.status ≠ JobStatus.running) ∧
    (∀ rows : List JobRow, ∀ j ∈ rows, j.status = JobStatus.running →
      ({ j with
          status := JobStatus.failed
          log_messages := j.log_messages ++ [restart_message] } : JobRow)
        ∈ cleanup_stale_jobs rows) := by
  constructor
  · intro rows j' hj'
    rw [cleanup_stale_jobs, List.mem_map] at hj'
    obtain ⟨j, hj, rfl⟩ := hj'
    by_cases h : j.status = JobStatus.running
    · simp [h]
    · simp [h]
  · intro rows j hj h
    rw [cleanup_stale_jobs, List.mem_map]
    exact ⟨j, hj, by simp [h]⟩

/-- Witness for C7 on a one-row table containing a running job. -/
theorem C7_startup_recovery_witness :
    ({ row_running with
        status := JobStatus.failed
        log_messages := row_running.log_messages ++ [restart_message] } : JobRow)
      ∈ cleanup_stale_jobs [row_running] ∧
    ∀ j' ∈ cleanup_stale_jobs [row_running], j'.status ≠ JobStatus.running :=
  ⟨C7_startup_recovery.2 [row_running] row_running (by simp) rfl,
   fun j' hj' => C7_startup_recovery.1 [row_running] j' hj'⟩

/-! ### C10: startup recovery touches only running jobs -/

/-- C10: `cleanup_stale_jobs` keeps every job row whose status is not
running — including pending rows — exactly as it was (same status,
progress, log and every other column, at the same position), and keeps
the table length; in particular a pending job stays pending. -/
theorem C10_recovery_frame :
    ∀ rows : List JobRow,
      (cleanup_stale_jobs rows).length = rows.length ∧
      (∀ (i : Nat) (j : JobRow), rows[i]? = some j →
        j.status ≠ JobStatus.running →
        (cleanup_stale_jobs rows)[i]? = some j) ∧
      (∀ (i : Nat) (j : JobRow), rows[i]? = some j →
        j.status = JobStatus.pending →
        (cleanup_stale_jobs rows)[i]? = some j) := by
  intro rows
  refine ⟨by simp [cleanup_stale_jobs], ?_, ?_⟩
  · intro i j hj hst
    rw [cleanup_stale_jobs, List.getElem?_map, hj]
    simp [hst]
  · intro i j hj hst
    rw [cleanup_stale_jobs, List.getElem?_map, hj]
    simp [hst]

/-- Witness for C10: a pending row and a completed row survive recovery
unchanged. -/
theorem C10_recovery_frame_witness :
    (cleanup_stale_jobs [row_pending, row_done])[0]? = some row_pending ∧
    (cleanup_stale_jobs [row_pending, row_done])[1]? = some row_done :=
  ⟨(C10_recovery_frame [row_pending, row_done]).2.2 0 row_pending rfl rfl,
   (C10_recovery_frame [row_pending, row_done]).2.1 1 row_done rfl (by decide)⟩

/-! ### C6: cancel_job return value and effect -/

/-- C6: `cancel_job` returns false and changes nothing when the job id is
not in the live registry or the job's status is already terminal
(completed, failed or cancelled); on a pending or running job it returns
true, sets the cancellation event, and — the task not being done —
requests cancellation of the task. -/
theorem C6_cancel_job :
    ∀ (jobs : List JobContext) (job_id : String),
      (jobs.find? (fun c => c.job_id == job_id) = none →
        cancel_job jobs job_id = (false, jobs)) ∧
      (∀ c : JobContext, jobs.find? (fun c => c.job_id == job_id) = some c →
        is_terminal c.status = true →
        cancel_job jobs job_id = (false, jobs)) ∧
      (∀ c : JobContext, jobs.find? (fun c => c.job_id == job_id) = some c →
        (c.status = JobStatus.pending ∨ c.status = JobStatus.running) →
        (cancel_job jobs job_id).1 = true ∧
        ∀ d ∈ (cancel_job jobs job_id).2, d.job_id = job_id →
          d.cancel_event_set = true ∧
          (d.task_done = false → d.task_cancel_requested = true)) := by
  intro jobs job_id
  refine ⟨?_, ?_, ?_⟩
  · intro h
    simp [cancel_job, h]
  · intro c hc ht
    simp [cancel_job, hc, ht]
  · intro c hc hs
    have ht : is_terminal c.status = false := by
      rcases hs with h | h <;> rw [h] <;> rfl
    simp only [cancel_job, hc, ht, Bool.false_eq_true, if_false]
    refine ⟨trivial, ?_⟩
    intro d hd hid
    simp only [List.mem_map] at hd
    obtain ⟨d0, _, rfl⟩ := hd
    by_cases h0 : (d0.job_id == job_id) = true
    · rw [if_pos h0]
      by_cases h1 : d0.task_done
      · simp [h1]
      · simp [h1]
    · rw [if_neg h0] at hid ⊢
      exact absurd (by simp [hid]) h0

/-- Witness for C6: on a one-entry registry holding a running job,
cancellation returns true and marks the entry; on an empty registry it
returns false. -/
theorem C6_cancel_job_witness :
    (cancel_job [ctx_running] ("j1")).1 = true ∧
    (∀ d ∈ (cancel_job [ctx_running] ("j1")).2, d.job_id = "j1" →
      d.cancel_event_set = true ∧
      (d.task_done = false → d.task_cancel_requested = true)) ∧
    cancel_job ([] : List JobContext) ("j1") = (false, []) :=
  ⟨((C6_cancel_job [ctx_running] ("j1")).2.2 ctx_running rfl (Or.inr rfl)).1,
   ((C6_cancel_job [ctx_running] ("j1")).2.2 ctx_running rfl (Or.inr rfl)).2,
   (C6_cancel_job ([] : List JobContext) ("j1")).1 rfl⟩

/-! ### C8: what start_job creates (corrected) -/

/-- Counterexample to C8: the claim says the persisted run row created by
`start_job` does not yet have status running at creation; but
`create_bot_run` (database.py line 231) creates the `bot_runs` row with
status running immediately, before the background task begins.  Starting
a job on an empty state yields a run row whose status is running. -/
theorem C8_counterexample :
    ¬ (∀ r ∈ (start_job ⟨[], [], []⟩ ("job-1") ("bot-1") ("scrape")
          ("manual")).2.runs, r.status ≠ RunStatus.running) := by
  intro h
  exact h (create_bot_run 1 ("bot-1") ("scrape") ("manual"))
    (by simp [start_job]) rfl

/-- C8 as amended: `start_job` creates exactly one persisted run row —
created with status running already at creation time — and exactly one
persisted job row with status pending and progress 0, allocates the
in-memory context with status pending, and returns the new job id
immediately; nothing else in the state changes. -/
theorem C8_start_job :
    ∀ (st : SchedulerState) (job_id bot_id job_type triggered_by : String),
      (start_job st job_id bot_id job_type triggered_by).1 = job_id ∧
      (start_job st job_id bot_id job_type triggered_by).2.runs =
        st.runs ++ [create_bot_run (st.runs.length + 1) bot_id job_type triggered_by] ∧
      (create_bot_run (st.runs.length + 1) bot_id job_type triggered_by).status =
        RunStatus.running ∧
      (start_job st job_id bot_id job_type triggered_by).2.job_rows =
        st.job_rows ++ [create_job job_id bot_id job_type (st.runs.length + 1)] ∧
      (create_job job_id bot_id job_type (st.runs.length + 1)).status =
        JobStatus.pending ∧
      (create_job job_id bot_id job_type (st.runs.length + 1)).progress = 0 ∧
      ((start_job st job_id bot_id job_type triggered_by).2.contexts.map
          fun c => c.status) =
        (st.contexts.map fun c => c.status) ++ [JobStatus.pending] := by
  intro st job_id bot_id job_type triggered_by
  refine ⟨rfl, rfl, rfl, rfl, rfl, rfl, ?_⟩
  simp [start_job]

/-! ### C5: the job status machine and absorbing terminal states -/

/-- C5: a job's status follows pending → running → one terminal status
(the whole-life trace written by `start_job` and `_run_job` is a chain of
`JobStep` transitions); no `JobStep` transition leaves a terminal status;
`cancel_job` never changes any job's status; and startup recovery either
leaves a row's status unchanged or performs the running → failed step,
leaving every terminal row untouched. -/
theorem C5_status_machine :
    (∀ r : RunOutcome, List.Chain' JobStep (job_status_trace r)) ∧
    (∀ s s' : JobStatus, is_terminal s = true → ¬ JobStep s s') ∧
    (∀ (jobs : List JobContext) (job_id : String),
      ((cancel_job jobs job_id).2.map fun c => c.status) =
        jobs.map fun c => c.status) ∧
    (∀ (rows : List JobRow) (i : Nat) (j : JobRow), rows[i]? = some j →
      ∃ j', (cleanup_stale_jobs rows)[i]? = some j' ∧
        (j' = j ∨ JobStep j.status j'.status) ∧
        (is_terminal j.status = true → j' = j)) := by
  refine ⟨?_, ?_, ?_, ?_⟩
  · intro r
    cases r with
    | success =>
      exact List.chain'_cons.2 ⟨JobStep.start,
        List.chain'_cons.2 ⟨JobStep.complete, List.chain'_singleton _⟩⟩
    | cancelled_error =>
      exact List.chain'_cons.2 ⟨JobStep.start,
        List.chain'_cons.2 ⟨JobStep.cancel, List.chain'_singleton _⟩⟩
    | raised m =>
      exact List.chain'_cons.2 ⟨JobStep.start,
        List.chain'_cons.2 ⟨JobStep.failure, List.chain'_singleton _⟩⟩
  · intro s s' hterm hstep
    cases hstep <;> simp [is_terminal] at hterm
  · intro jobs job_id
    cases hf : jobs.find? (fun c => c.job_id == job_id) with
    | none => simp [cancel_job, hf]
    | some c =>
      by_cases ht : is_terminal c.status = true
      · simp [cancel_job, hf, ht]
      · simp only [cancel_job, hf, ht, Bool.false_eq_true, if_false]
        rw [List.map_map]
        refine List.map_congr_left ?_
        intro d _
        simp only [Function.comp]
        split
        · split <;> rfl
        · rfl
  · intro rows i j hj
    rw [cleanup_stale_jobs, List.getElem?_map, hj]
    by_cases h : j.status = JobStatus.running
    · refine ⟨_, rfl, Or.inr ?_, ?_⟩
      · simp only [if_pos h, h]
        exact JobStep.failure
      · intro hterm
        rw [h] at hterm
        simp [is_terminal] at hterm
    · exact ⟨j, by simp [h], Or.inl rfl, fun _ => rfl⟩

/-- Witness for C5: the successful-run trace is a chain; a completed job
admits no further step; cancelling a one-job registry leaves its status
unchanged; recovery leaves a completed row untouched. -/
theorem C5_status_machine_witness :
    List.Chain' JobStep (job_status_trace RunOutcome.success) ∧
    ¬ JobStep JobStatus.completed JobStatus.running ∧
    ((cancel_job [ctx_running] ("j1")).2.map fun c => c.status) =
      [JobStatus.running] ∧
    ∃ j', (cleanup_stale_jobs [row_done])[0]? = some j' ∧
      (j' = row_done ∨ JobStep row_done.status j'.status) ∧
      (is_terminal row_done.status = true → j' = row_done) :=
  ⟨C5_status_machine.1 RunOutcome.success,
   C5_status_machine.2.1 JobStatus.completed JobStatus.running rfl,
   C5_status_machine.2.2.1 [ctx_running] ("j1"),
   C5_status_machine.2.2.2 [row_done] 0 row_done rfl⟩

/-! ### Scrape-loop lemmas -/

/-- Processing one examined item whose parsed date is strictly older than
the watermark: the loop stops (returning the collected list) when the
streak reaches 3, and otherwise skips the item with the streak grown. -/
theorem scrape_posts_loop_old_item (wm maxp : Nat) (item : FeedItem)
    (rest : List FeedItem) (streak scraped : Nat) (acc : List FeedItem)
    (d : Nat) (ha : item.author_name.isSome = true)
    (hu : item.user_id.isSome = true) (hd : item.date_info = some (some d))
    (hlt : d < wm) :
    scrape_posts_loop (some wm) maxp (item :: rest) streak scraped acc =
      if 3 ≤ streak + 1 then acc
      else scrape_posts_loop (some wm) maxp rest (streak + 1) scraped acc := by
  obtain ⟨x, hx⟩ := Option.isSome_iff_exists.1 ha
  obtain ⟨y, hy⟩ := Option.isSome_iff_exists.1 hu
  rw [scrape_posts_loop]
  simp only [hx, hy, hd, should_stop_for_old_post, if_pos hlt]
  by_cases h3 : 3 ≤ streak + 1
  · simp [h3]
  · simp [h3]

/-- If every item of the remaining feed has a parseable timestamp strictly
older than the watermark, the loop collects nothing beyond what it already
has. -/
theorem scrape_posts_loop_all_old (wm maxp : Nat) :
    ∀ (feed : List FeedItem) (streak scraped : Nat) (acc : List FeedItem),
      (∀ it ∈ feed, ∃ d, it.date_info = some (some d) ∧ d < wm) →
      scrape_posts_loop (some wm) maxp feed streak scraped acc = acc := by
  intro feed
  induction feed with
  | nil => intro streak scraped acc _; rw [scrape_posts_loop]
  | cons item rest ih =>
    intro streak scraped acc h
    obtain ⟨d, hd, hlt⟩ := h item (by simp)
    have hrest : ∀ it ∈ rest, ∃ d, it.date_info = some (some d) ∧ d < wm :=
      fun it hit => h it (by simp [hit])
    cases hx : item.author_name with
    | none =>
      rw [scrape_posts_loop]
      simp only [hx]
      exact ih streak scraped acc hrest
    | some aname =>
      cases hy : item.user_id with
      | none =>
        rw [scrape_posts_loop]
        simp only [hx, hy]
        exact ih streak scraped acc hrest
      | some uid =>
        rw [scrape_posts_loop_old_item wm maxp item rest streak scraped acc d
          (by simp [hx]) (by simp [hy]) hd hlt]
        by_cases h3 : 3 ≤ streak + 1
        · rw [if_pos h3]
        · rw [if_neg h3]
          exact ih (streak + 1) scraped acc hrest

/-! ### C2: the old-item streak -/

/-- C2: during an incremental crawl against a stored watermark, the
old-post check fires exactly when the item's timestamp parses, is
strictly older than the watermark, and brings the consecutive-old counter
to 3; an unparseable timestamp never counts toward nor triggers the
streak; a timestamp not older than the watermark resets the streak to 0;
and three consecutively examined items all parsed-older than the
watermark stop the scrape on the spot, whatever feed follows them. -/
theorem C2_old_item_streak :
    (∀ (parsed latest : Option Nat) (streak : Nat),
      (should_stop_for_old_post parsed latest streak).1 = true ↔
        ∃ p w, parsed = some p ∧ latest = some w ∧ p < w ∧ 3 ≤ streak + 1) ∧
    (∀ (latest : Option Nat) (streak : Nat),
      should_stop_for_old_post none latest streak = (false, 0)) ∧
    (∀ (p w streak : Nat), w ≤ p →
      should_stop_for_old_post (some p) (some w) streak = (false, 0)) ∧
    (∀ (wm maxp : Nat) (a b c : FeedItem) (ys : List FeedItem)
        (streak scraped : Nat) (acc : List FeedItem) (da db dc : Nat),
      a.author_name.isSome = true → a.user_id.isSome = true →
      a.date_info = some (some da) → da < wm →
      b.author_name.isSome = true → b.user_id.isSome = true →
      b.date_info = some (some db) → db < wm →
      c.author_name.isSome = true → c.user_id.isSome = true →
      c.date_info = some (some dc) → dc < wm →
      scrape_posts_loop (some wm) maxp (a :: b :: c :: ys) streak scraped acc
        = acc) := by
  refine ⟨?_, ?_, ?_, ?_⟩
  · intro parsed latest streak
    cases parsed with
    | none => simp [should_stop_for_old_post]
    | some p =>
      cases latest with
      | none => simp [should_stop_for_old_post]
      | some w =>
        by_cases h1 : p < w
        · by_cases h2 : 3 ≤ streak + 1
          · simp [should_stop_for_old_post, h1, h2]
          · simp [should_stop_for_old_post, h1, h2]
        · simp [should_stop_for_old_post, h1]
  · intro latest streak
    cases latest <;> rfl
  · intro p w streak h
    have hnl : ¬ p < w := by omega
    simp [should_stop_for_old_post, hnl]
  · intro wm maxp a b c ys streak scraped acc da db dc
      ha1 ha2 ha3 ha4 hb1 hb2 hb3 hb4 hc1 hc2 hc3 hc4
    rw [scrape_posts_loop_old_item wm maxp a (b :: c :: ys) streak scraped acc
      da ha1 ha2 ha3 ha4]
    by_cases h1 : 3 ≤ streak + 1
    · rw [if_pos h1]
    · rw [if_neg h1]
      rw [scrape_posts_loop_old_item wm maxp b (c :: ys) (streak + 1) scraped
        acc db hb1 hb2 hb3 hb4]
      by_cases h2 : 3 ≤ streak + 1 + 1
      · rw [if_pos h2]
      · rw [if_neg h2]
        rw [scrape_posts_loop_old_item wm maxp c ys (streak + 1 + 1) scraped
          acc dc hc1 hc2 hc3 hc4]
        have h3 : 3 ≤ streak + 1 + 1 + 1 := by omega
        rw [if_pos h3]

/-- Witness for C2: the streak check fires on a third consecutive old
item; an unparseable date gives no stop and a zero streak; a newer item
resets; and three old items stop a crawl on the spot, collecting
nothing. -/
theorem C2_old_item_streak_witness :
    ((should_stop_for_old_post (some 5) (some 10) 2).1 = true ↔
      ∃ p w, (some 5 : Option Nat) = some p ∧ (some 10 : Option Nat) = some w ∧
        p < w ∧ 3 ≤ 2 + 1) ∧
    should_stop_for_old_post none (some 10) 2 = (false, 0) ∧
    should_stop_for_old_post (some 12) (some 10) 2 = (false, 0) ∧
    scrape_posts_loop (some 10) 100 [old_item, old_item, old_item] 0 0 [] = [] :=
  ⟨C2_old_item_streak.1 (some 5) (some 10) 2,
   C2_old_item_streak.2.1 (some 10) 2,
   C2_old_item_streak.2.2.1 12 10 2 (by omega),
   C2_old_item_streak.2.2.2 10 100 old_item old_item old_item [] 0 0 [] 5 5 5
     rfl rfl rfl (by omega) rfl rfl rfl (by omega) rfl rfl rfl (by omega)⟩

/-! ### C1: the watermark advances to the crawl start time -/

/-- C1: a successful crawl of a source group stores the crawl's start
time — not any item's timestamp — as the group's new watermark
`last_scrape_date`; consequently, re-running the crawl immediately when
no new items have appeared (every item of the fresh feed carries a
parseable timestamp strictly before the first crawl's start time) adds
zero new items to the store. -/
theorem C1_watermark_advance :
    ∀ (start_time maxp : Nat) (feed : List FeedItem) (g : Group)
      (store : List Post),
      (collect_group start_time maxp feed g store).1.last_scrape_date =
        start_time ∧
      ∀ (t2 : Nat) (feed2 : List FeedItem) (store2 : List Post),
        (∀ it ∈ feed2, ∃ d, it.date_info = some (some d) ∧ d < start_time) →
        (collect_group t2 maxp feed2
            (collect_group start_time maxp feed g store).1 store2).2 = store2 := by
  intro start_time maxp feed g store
  refine ⟨rfl, ?_⟩
  intro t2 feed2 store2 hold
  have hwm : (collect_group start_time maxp feed g store).1.last_scrape_date =
      start_time := rfl
  simp only [collect_group, scrape_posts, hwm]
  rw [scrape_posts_loop_all_old start_time maxp feed2 0 0 [] hold]
  rfl

/-- Witness for C1: crawling the empty feed at start time 10 and then
re-crawling a feed whose single item is dated 5 (older than 10) changes
nothing, and the stored watermark is the start time. -/
theorem C1_watermark_advance_witness :
    (collect_group 10 100 [] g0 []).1.last_scrape_date = 10 ∧
    (collect_group 3 100 [old_item] (collect_group 10 100 [] g0 []).1 []).2
      = [] :=
  ⟨(C1_watermark_advance 10 100 [] g0 []).1,
   (C1_watermark_advance 10 100 [] g0 []).2 3 [old_item] []
     (by
      intro it hit
      simp only [List.mem_singleton] at hit
      subst hit
      exact ⟨5, rfl, by omega⟩)⟩

/-! ### C3: exact duplicates are never persisted twice -/

/-- No two rows of the store share the exact-duplicate key. -/
def NoExactDup (store : List Post) : Prop :=
  store.Pairwise fun p q => ¬ SameItemKey p q

/-- The row filter of the duplicate query holds exactly on rows agreeing
with the probed post on content, author identity and bot. -/
theorem matches_post_key_iff (p q : Post) :
    matches_post_key p q = true ↔ SameItemKey q p := by
  simp [matches_post_key, SameItemKey, Bool.and_eq_true, beq_iff_eq, and_assoc]

/-- `SameItemKey` is transitive through a common post. -/
theorem SameItemKey.trans_through {a b p : Post}
    (ha : SameItemKey a p) (hb : SameItemKey b p) : SameItemKey a b :=
  ⟨ha.1.trans hb.1.symm, ha.2.1.trans hb.2.1.symm, ha.2.2.trans hb.2.2.symm⟩

/-- On a store without exact duplicates the duplicate query matches at
most one row. -/
theorem filter_key_short (store : List Post) (p : Post) (h : NoExactDup store) :
    store.filter (matches_post_key p) = [] ∨
      ∃ q, store.filter (matches_post_key p) = [q] := by
  rcases hf : store.filter (matches_post_key p) with _ | ⟨a, _ | ⟨b, l⟩⟩
  · exact Or.inl rfl
  · exact Or.inr ⟨a, rfl⟩
  · exfalso
    have hpw : (store.filter (matches_post_key p)).Pairwise
        fun x y => ¬ SameItemKey x y :=
      List.Pairwise.sublist (List.filter_sublist store) h
    rw [hf] at hpw
    have hab : ¬ SameItemKey a b := (List.pairwise_cons.1 hpw).1 b (by simp)
    have ha : SameItemKey a p := by
      have hm : a ∈ store.filter (matches_post_key p) := by rw [hf]; simp
      exact (matches_post_key_iff p a).1 (List.mem_filter.1 hm).2
    have hb : SameItemKey b p := by
      have hm : b ∈ store.filter (matches_post_key p) := by rw [hf]; simp
      exact (matches_post_key_iff p b).1 (List.mem_filter.1 hm).2
    exact hab (ha.trans_through hb)

/-- Persisting through the duplicate check preserves the
no-exact-duplicates invariant. -/
theorem persist_item_no_dup (store : List Post) (post : Post)
    (h : NoExactDup store) : NoExactDup (persist_item store post) := by
  rcases hfl : store.filter (matches_post_key post) with _ | ⟨a, _ | ⟨b, l⟩⟩
  · have hpe : persist_item store post = store ++ [post] := by
      simp only [persist_item, check_duplicate_post, hfl]
    rw [hpe, NoExactDup, List.pairwise_append]
    refine ⟨h, List.pairwise_singleton _ _, ?_⟩
    intro q hq r hr
    simp only [List.mem_singleton] at hr
    intro hkey
    rw [hr] at hkey
    have hq1 : matches_post_key post q = true := (matches_post_key_iff post q).2 hkey
    have hq2 : q ∈ store.filter (matches_post_key post) := List.mem_filter.2 ⟨hq, hq1⟩
    rw [hfl] at hq2
    simp at hq2
  · have hpe : persist_item store post = store := by
      simp only [persist_item, check_duplicate_post, hfl]
    rw [hpe]
    exact h
  · have hpe : persist_item store post = store := by
      simp only [persist_item, check_duplicate_post, hfl]
    rw [hpe]
    exact h

/-- C3: the persist step of the Collect pipeline never stores an exact
duplicate: it preserves the invariant that no two rows share
`(bot_id, user_id, content)`, it rejects a post whose key already occurs
in the store, the duplicate query cannot raise on an invariant-respecting
store, and folding it over any batch of collected items keeps the
invariant. -/
theorem C3_exact_duplicates :
    ∀ (store : List Post) (post : Post), NoExactDup store →
      NoExactDup (persist_item store post) ∧
      ((∃ q ∈ store, SameItemKey q post) → persist_item store post = store) ∧
      check_duplicate_post store post ≠ none ∧
      ∀ items : List Post, NoExactDup (items.foldl persist_item store) := by
  intro store post h
  refine ⟨persist_item_no_dup store post h, ?_, ?_, ?_⟩
  · rintro ⟨q, hq, hkey⟩
    have hmem : q ∈ store.filter (matches_post_key post) :=
      List.mem_filter.2 ⟨hq, (matches_post_key_iff post q).2 hkey⟩
    rcases hfl : store.filter (matches_post_key post) with _ | ⟨a, _ | ⟨b, l⟩⟩
    · rw [hfl] at hmem; simp at hmem
    · simp only [persist_item, check_duplicate_post, hfl]
    · simp only [persist_item, check_duplicate_post, hfl]
  · rcases filter_key_short store post h with hf | ⟨q, hf⟩
    · simp only [check_duplicate_post, hf]
      simp
    · simp only [check_duplicate_post, hf]
      simp
  · intro items
    induction items generalizing store with
    | nil => exact h
    | cons it rest ih =>
      exact ih (persist_item store it) (persist_item_no_dup store it h)

/-- Witness for C3: persisting the same post twice into an empty store
stores it once, rejects the repeat, and keeps the invariant. -/
theorem C3_exact_duplicates_witness :
    NoExactDup (persist_item [new_post1] new_post1) ∧
    persist_item [new_post1] new_post1 = [new_post1] ∧
    check_duplicate_post [new_post1] new_post1 ≠ none ∧
    NoExactDup ([new_post1, new_post1].foldl persist_item []) := by
  have hinv : NoExactDup [new_post1] := List.pairwise_singleton _ _
  have h := C3_exact_duplicates [new_post1] new_post1 hinv
  have hempty : NoExactDup ([] : List Post) := List.Pairwise.nil
  have h2 := C3_exact_duplicates [] new_post1 hempty
  exact ⟨h.1, h.2.1 ⟨new_post1, by simp, ⟨rfl, rfl, rfl⟩⟩, h.2.2.1,
    h2.2.2.2 [new_post1, new_post1]⟩

/-! ### C4: the approximate-duplicate lead check -/

/-- C4: over non-empty contents (as all scraped-and-persisted posts have),
`check_duplicate_lead` returns true exactly when some stored lead of the
same author and bot scores at least the threshold against the new
content; suppression is monotone — anything flagged at a threshold is
flagged at every lower threshold, for any scorer; and a post the analysis
marks as a lead that the check flags is demoted to non-lead and excluded
from the returned candidates instead of being acted on. -/
theorem C4_duplicate_lead :
    ∀ (fuzz_ratio : String → String → Rat) (store : List Post)
      (user_id new_content bot_id : String) (threshold : Rat),
      (new_content ≠ "" → (∀ p ∈ store, p.content ≠ "") →
        (check_duplicate_lead fuzz_ratio store user_id new_content bot_id
            threshold = true ↔
          ∃ p ∈ store, p.user_id = user_id ∧ p.is_lead = some true ∧
            p.bot_id = bot_id ∧
            threshold ≤ fuzz_ratio p.content.toLower new_content.toLower)) ∧
      (∀ threshold' : Rat, threshold' ≤ threshold →
        check_duplicate_lead fuzz_ratio store user_id new_content bot_id
          threshold = true →
        check_duplicate_lead fuzz_ratio store user_id new_content bot_id
          threshold' = true) ∧
      (∀ post : Post,
        check_duplicate_lead fuzz_ratio store post.user_id post.content
          bot_id 80 = true →
        (classify_post_step fuzz_ratio store bot_id post true).1.is_lead =
          some false ∧
        (classify_post_step fuzz_ratio store bot_id post true).2 = false) := by
  intro fuzz_ratio store user_id new_content bot_id threshold
  refine ⟨?_, ?_, ?_⟩
  · intro hnc hstore
    simp only [check_duplicate_lead, List.any_eq_true, List.mem_filter,
      Bool.and_eq_true, beq_iff_eq, Bool.not_eq_true', beq_eq_false_iff_ne,
      decide_eq_true_eq]
    constructor
    · rintro ⟨p, ⟨hmem, ⟨hu, hl⟩, hb⟩, _, hsc⟩
      exact ⟨p, hmem, hu, hl, hb, hsc⟩
    · rintro ⟨p, hmem, hu, hl, hb, hsc⟩
      exact ⟨p, ⟨hmem, ⟨hu, hl⟩, hb⟩, ⟨hstore p hmem, hnc⟩, hsc⟩
  · intro threshold' hle h
    simp only [check_duplicate_lead, List.any_eq_true, List.mem_filter,
      Bool.and_eq_true, beq_iff_eq, Bool.not_eq_true', beq_eq_false_iff_ne,
      decide_eq_true_eq] at h ⊢
    obtain ⟨p, hp1, hp2, hsc⟩ := h
    exact ⟨p, hp1, hp2, le_trans hle hsc⟩
  · intro post h
    simp [classify_post_step, h]

/-- Witness for C4: with a constant scorer of 90, a stored lead of the
same author and bot makes the check fire at the default threshold 80 (and
at the lower threshold 50), and the incoming post is demoted and dropped
from the candidates. -/
theorem C4_duplicate_lead_witness :
    (check_duplicate_lead fr90 [lead_post1] ("u1") ("hello world again")
        ("b1") 80 = true ↔
      ∃ p ∈ [lead_post1], p.user_id = "u1" ∧ p.is_lead = some true ∧
        p.bot_id = "b1" ∧
        (80 : Rat) ≤ fr90 p.content.toLower ("hello world again").toLower) ∧
    check_duplicate_lead fr90 [lead_post1] ("u1") ("hello world again")
      ("b1") 50 = true ∧
    (classify_post_step fr90 [lead_post1] ("b1") new_post1 true).1.is_lead =
      some false ∧
    (classify_post_step fr90 [lead_post1] ("b1") new_post1 true).2 = false := by
  have h := C4_duplicate_lead fr90 [lead_post1] ("u1") ("hello world again")
    ("b1") 80
  have hfire : check_duplicate_lead fr90 [lead_post1] ("u1")
      ("hello world again") ("b1") 80 = true := by
    refine (h.1 (by decide) ?_).2 ⟨lead_post1, by simp, rfl, rfl, rfl, by decide⟩
    intro p hp
    simp only [List.mem_singleton] at hp
    subst hp
    decide
  have hdem := (C4_duplicate_lead fr90 [lead_post1] ("u1")
      ("hello world again") ("b1") 80).2.2 new_post1 (by
    have : new_post1.user_id = "u1" := rfl
    have : new_post1.content = "hello world again" := rfl
    exact hfire)
  exact ⟨h.1 (by decide) (by
      intro p hp
      simp only [List.mem_singleton] at hp
      subst hp
      decide),
    h.2.1 50 (by norm_num) hfire, hdem.1, hdem.2⟩

/-! ### C9: the full pipeline (corrected) -/

/-- Counterexample to C9: the claim says reported progress stays within
[0,33] during Collect; but when the scrape sub-stage of a full job
completes, `_run_scrape_job` itself writes progress 100 (job_manager.py
line 196) before the pipeline resets it to the 33 boundary, so the second
progress write of an all-successful full job — issued during Collect,
before any classify write — is 100, outside [0,33]. -/
theorem C9_counterexample :
    (run_full_pipeline env_all_ok).1.take 2 = [0, 100] ∧ ¬ (100 ≤ 33) := by
  constructor
  · rfl
  · omega

/-- C9 as amended: a full job runs Collect, Classify and Act strictly in
that order; the pipeline writes the stage boundaries 0, 33, 33, 66, 66,
100 in order, but each completing sub-stage transiently writes progress
100 of its own before the next boundary; a failing sub-stage prevents the
later stages from starting and the job and the run are marked failed with
the failing stage's error; in particular a failure during Classify leaves
the last written progress frozen at 33, within [33,66]. -/
theorem C9_full_pipeline :
    ∀ env : FullPipelineEnv,
      (∀ m, env.scrape_result = .fail m →
        run_job_full env = ([0], .failed, .failed, some m) ∧
        (run_full_pipeline env).2.1 = [("scrape")]) ∧
      (∀ m, env.scrape_result = .ok → env.classify_result = .fail m →
        run_job_full env = ([0, 100, 33, 33], .failed, .failed, some m) ∧
        (run_full_pipeline env).2.1 = [("scrape"), ("classify")] ∧
        (run_job_full env).1.getLast? = some 33 ∧ 33 ≤ 33 ∧ 33 ≤ 66) ∧
      (∀ m, env.scrape_result = .ok → env.classify_result = .ok →
        env.process_result = .fail m →
        (run_job_full env).2.1 = .failed ∧
        (run_job_full env).2.2.1 = .failed ∧
        (run_job_full env).2.2.2 = some m ∧
        (run_full_pipeline env).2.1 = [("scrape"), ("classify"), ("process")] ∧
        (run_job_full env).1.getLast? = some 66) ∧
      (env.scrape_result = .ok → env.classify_result = .ok →
        env.process_result = .ok →
        (run_job_full env).2.1 = .completed ∧
        (run_job_full env).2.2.1 = .completed ∧
        (run_job_full env).2.2.2 = none ∧
        (run_full_pipeline env).2.1 = [("scrape"), ("classify"), ("process")] ∧
        (run_job_full env).1.getLast? = some 100) := by
  intro env
  obtain ⟨sr, cr, hp, pr, hc⟩ := env
  cases sr <;> cases cr <;> cases pr <;> cases hp <;> cases hc <;>
    simp [run_job_full, run_full_pipeline]

/-- Witness for C9 on concrete environments: a classify failure freezes
progress at 33 and marks job and run failed with the classify error; an
all-successful full job runs the three stages in order and completes. -/
theorem C9_full_pipeline_witness :
    (run_job_full env_classify_fails =
      ([0, 100, 33, 33], .failed, .failed, some ("classify boom")) ∧
      (run_full_pipeline env_classify_fails).2.1 = [("scrape"), ("classify")] ∧
      (run_job_full env_classify_fails).1.getLast? = some 33 ∧
      33 ≤ 33 ∧ 33 ≤ 66) ∧
    ((run_job_full env_all_ok).2.1 = .completed ∧
      (run_job_full env_all_ok).2.2.1 = .completed ∧
      (run_job_full env_all_ok).2.2.2 = none ∧
      (run_full_pipeline env_all_ok).2.1 = [("scrape"), ("classify"), ("process")] ∧
      (run_job_full env_all_ok).1.getLast? = some 100) :=
  ⟨(C9_full_pipeline env_classify_fails).2.1 ("classify boom") rfl rfl,
   (C9_full_pipeline env_all_ok).2.2.2 rfl rfl rfl⟩

end FB
